import Mathlib

/-!
Verification of the SignBridge speech-to-text service against its design
specification.  The development shallowly embeds the Python sources:

* `src/app/services/speech_service.py` — `SpeechService` (one-shot and
  real-time transcription over pluggable backends);
* `src/app/services/websocket_manager.py` — `WebSocketManager` (the
  connection registry);
* `src/app/main.py` — the `/transcribe` endpoint and the
  `/ws/live-transcription` loop body.

External effects (the OpenAI / Azure / Whisper SDK calls, `pydub` audio
decoding, transports of individual websockets) are modelled as oracle
functions supplied as parameters: each oracle returns either the value the
library produced or the message of the exception it raised.  Everything the
repository's own code does with those values is translated literally.
Python dicts with optional keys become structures of `Option` fields;
Python floats (`0.85`, `0.9`, dBFS values) become exact rationals.
-/

namespace SignBridge

/-- Audio input accepted by `SpeechService.transcribe`:
`audio_data : Union[bytes, str]` — raw bytes or a file path. -/
inductive Audio where
  | bytes (data : List Nat)
  | path (p : String)
deriving DecidableEq

/-- The dict returned by the transcription methods.  Each Python dict key may
be absent, hence `Option` fields; `isFinal` models the `"is_final"` key and
`duration` the `"duration"` key that only the OpenAI variant sets. -/
structure TDict where
  text : Option String := none
  confidence : Option ℚ := none
  language : Option String := none
  isFinal : Option Bool := none
  error : Option String := none
  duration : Option ℚ := none
deriving DecidableEq

/-- Which optional third-party libraries imported successfully
(the `try: import … except ImportError: … = None` guards at the top of
`speech_service.py`), plus the relevant settings from `config.py`.
`OPENAI_API_KEY` is read only by `_init_openai` (which sets a module-global
key for logging purposes); the branch in `transcribe` never consults it. -/
structure Env where
  openaiInstalled : Bool
  whisperInstalled : Bool
  speechsdkInstalled : Bool
  pydubInstalled : Bool
  engine : String            -- settings.SPEECH_RECOGNITION_ENGINE
  OPENAI_API_KEY : String := ""
  AUDIO_SAMPLE_RATE : ℤ := 16000

/-- Successful value of `client.audio.transcriptions.create` (OpenAI):
`transcript.text` is always present; `language` and `duration` are read via
`getattr` with defaults, so they may be absent. -/
structure OpenAIOut where
  text : String
  language : Option String
  duration : Option ℚ
deriving DecidableEq

/-- Outcome of `speech_recognizer.recognize_once` (Azure): either speech was
recognized with some text, or `result.reason` was anything else. -/
inductive AzureOut where
  | recognized (text : String)
  | notRecognized
deriving DecidableEq

/-- Successful value of `self.whisper_model.transcribe(audio_path)`:
the code reads `result["text"]` and `result["language"]` unconditionally. -/
structure WhisperOut where
  text : String
  language : String
deriving DecidableEq

/-- The `pydub.AudioSegment` obtained from `AudioSegment.from_raw` on a raw
chunk: `len(audio_segment)` is its duration in milliseconds, `dBFS` its
average energy, and `wav` the bytes produced by `export(format="wav")`. -/
structure Seg where
  lengthMs : ℤ
  dBFS : ℚ
  wav : List Nat
deriving DecidableEq

/-- Oracles for the external libraries.  `.error e` means the library call
raised an exception with message `e` (caught by the enclosing
`try/except`); `.ok` carries the value it returned. -/
structure Oracles where
  openaiCall : Audio → Except String OpenAIOut
  azureCall : Audio → Except String AzureOut
  whisperCall : Audio → Except String WhisperOut
  decodeRaw : List Nat → Except String Seg

/-- `SpeechService._transcribe_openai` (speech_service.py lines 86-113). -/
def transcribe_openai (o : Oracles) (audio : Audio) : TDict :=
  match o.openaiCall audio with
  | .error e => { text := some "", confidence := some 0, error := some e }
  | .ok r =>
      { text := some r.text
        confidence := some (9/10)
        language := some (r.language.getD "en")
        duration := some (r.duration.getD 0) }

/-- Python `str.strip()`: drop leading and trailing whitespace. -/
def pyStrip (s : String) : String :=
  ⟨((s.data.dropWhile Char.isWhitespace).reverse.dropWhile Char.isWhitespace).reverse⟩

/-- `SpeechService._transcribe_whisper_local` (speech_service.py lines
115-144).  Model loading, temp-file handling and inference are folded into
the single `whisperCall` oracle; `result["text"].strip()` is `pyStrip`. -/
def transcribe_whisper_local (env : Env) (o : Oracles) (audio : Audio) : TDict :=
  if !env.whisperInstalled then
    { text := some "", confidence := some 0, error := some "Whisper not installed" }
  else
    match o.whisperCall audio with
    | .error e => { text := some "", confidence := some 0, error := some e }
    | .ok r =>
        { text := some (pyStrip r.text)
          confidence := some (85/100)
          language := some r.language }

/-- `SpeechService._transcribe_azure` (speech_service.py lines 146-178).
Stream construction and recognition are folded into `azureCall`; a missing
`azure_speech_config` attribute (keys not configured) surfaces as an
exception of that call. -/
def transcribe_azure (env : Env) (o : Oracles) (audio : Audio) : TDict :=
  if !env.speechsdkInstalled then
    { text := some "", confidence := some 0, error := some "Azure Speech SDK not installed" }
  else
    match o.azureCall audio with
    | .error e => { text := some "", confidence := some 0, error := some e }
    | .ok (.recognized t) =>
        { text := some t, confidence := some (9/10), language := some "en-GB" }
    | .ok .notRecognized =>
        { text := some "", confidence := some 0, error := some "No speech recognized" }

/-- Python `str.lower()`, applied in the source only to the configured
engine name (an ASCII identifier), mapped character-wise to lowercase. -/
def pyLower (s : String) : String := ⟨s.data.map Char.toLower⟩

/-- `SpeechService.transcribe` (speech_service.py lines 70-84).  The branch
lowercases the configured engine name (`engine = ….lower()`) and checks
only whether the matching library imported; otherwise it falls through to
the local Whisper variant.  The callees are total (they catch their own
exceptions), so the outer `except` never fires and the embedding is a
total function. -/
def transcribe (env : Env) (o : Oracles) (audio : Audio) : TDict :=
  if pyLower env.engine == "openai" && env.openaiInstalled then
    transcribe_openai o audio
  else if pyLower env.engine == "azure" && env.speechsdkInstalled then
    transcribe_azure env o audio
  else
    transcribe_whisper_local env o audio

/-- `SpeechService.transcribe_realtime` (speech_service.py lines 180-211). -/
def transcribe_realtime (env : Env) (o : Oracles) (chunk : List Nat) : TDict :=
  if !env.pydubInstalled then
    transcribe env o (.bytes chunk)
  else
    match o.decodeRaw chunk with
    | .error e =>
        { text := some "", confidence := some 0, isFinal := some false, error := some e }
    | .ok seg =>
        if seg.lengthMs < 500 then
          { text := some "", confidence := some 0, isFinal := some false }
        else if seg.dBFS < -40 then
          { text := some "", confidence := some 0, isFinal := some false }
        else
          let r := transcribe_whisper_local env o (.bytes seg.wav)
          { r with isFinal := some (decide (0 < (r.text.getD "").length)) }

/-! ### The `/transcribe` endpoint (main.py lines 56-79) -/

/-- A FastAPI `HTTPException`: status code and detail string. -/
structure HTTPExc where
  status : Nat
  detail : String
deriving DecidableEq

/-- The success body of the `/transcribe` endpoint. -/
structure TranscribeResp where
  transcription : TDict
  timestamp : String
  confidence : ℚ
  language : String
deriving DecidableEq

/-- Python truthiness of `audio_data.get("audio")`: `None` (key absent),
an empty bytes object and an empty string are all falsy. -/
def audioFalsy : Option Audio → Bool
  | none => true
  | some (.bytes b) => b.isEmpty
  | some (.path p) => p.isEmpty

/-- The body of the `try:` block of `transcribe_audio` (main.py lines
61-75): raise `HTTPException(400, "No audio data provided")` on a falsy
payload, otherwise call `speech_service.transcribe` and build the response.
The second component records whether the backend transcription was called;
`now` stands for `speech_service.get_timestamp()` (wall clock). -/
def transcribe_audio_try (env : Env) (o : Oracles) (audioField : Option Audio)
    (now : String) : Except HTTPExc TranscribeResp × Bool :=
  if audioFalsy audioField then
    (.error ⟨400, "No audio data provided"⟩, false)
  else
    match audioField with
    | none => (.error ⟨400, "No audio data provided"⟩, false)
    | some a =>
        let t := transcribe env o a
        (.ok ⟨t, now, t.confidence.getD 0, "en-GB"⟩, true)

/-- `transcribe_audio` (main.py lines 56-79).  The `except Exception`
clause catches every exception raised in the `try:` block — including the
`HTTPException(400, ...)` FastAPI's `HTTPException` is a subclass of
`Exception` — and re-raises `HTTPException(500, "Transcription failed")`. -/
def transcribe_audio (env : Env) (o : Oracles) (audioField : Option Audio)
    (now : String) : Except HTTPExc TranscribeResp × Bool :=
  match transcribe_audio_try env o audioField now with
  | (.ok r, b) => (.ok r, b)
  | (.error _e, b) => (.error ⟨500, "Transcription failed"⟩, b)

/-! ### `WebSocketManager` (websocket_manager.py) -/

/-- The per-connection metadata dict created by `connect`. -/
structure ConnInfo where
  connected_at : Option String := none
  client_type : Option String := none
  session_id : Option String := none
deriving DecidableEq

/-- `WebSocketManager` state: `active_connections` is a Python list (order
and multiplicity matter), `connection_info` a dict keyed by the websocket
object, modelled as an association list in insertion order.  Websockets are
identified by a `Nat` (Python object identity). -/
structure WSManager where
  active_connections : List Nat
  connection_info : List (Nat × ConnInfo)
deriving DecidableEq

/-- The state built by `WebSocketManager.__init__`. -/
def emptyManager : WSManager := ⟨[], []⟩

/-- Python dict assignment `d[k] = v`: replaces the value in place when the
key exists, otherwise appends at the end (dict insertion order). -/
def dictInsert (k : Nat) (v : ConnInfo) :
    List (Nat × ConnInfo) → List (Nat × ConnInfo)
  | [] => [(k, v)]
  | (k', v') :: rest =>
      if k = k' then (k, v) :: rest else (k', v') :: dictInsert k v rest

/-- Python `del d[k]` (keys are unique in a dict, so removing the first
match suffices). -/
def dictDelete (k : Nat) :
    List (Nat × ConnInfo) → List (Nat × ConnInfo)
  | [] => []
  | (k', v') :: rest =>
      if k = k' then rest else (k', v') :: dictDelete k rest

/-- The keys of the `connection_info` dict. -/
def dictKeys (l : List (Nat × ConnInfo)) : List Nat := l.map Prod.fst

/-- `WebSocketManager.connect` (lines 19-28): `accept()` the transport,
append to `active_connections`, create the metadata entry.  There is no
duplicate check — a second `connect` on the same websocket appends again. -/
def connect (ws : Nat) (m : WSManager) : WSManager :=
  { active_connections := m.active_connections ++ [ws]
    connection_info := dictInsert ws {} m.connection_info }

/-- `WebSocketManager.disconnect` (lines 30-36): remove the websocket from
`active_connections` if present (`list.remove` deletes the first
occurrence), and only then delete its metadata entry if present. -/
def disconnect (ws : Nat) (m : WSManager) : WSManager :=
  if ws ∈ m.active_connections then
    { active_connections := m.active_connections.erase ws
      connection_info :=
        if ws ∈ dictKeys m.connection_info then dictDelete ws m.connection_info
        else m.connection_info }
  else m

/-- `WebSocketManager.get_connection_count` (lines 67-69). -/
def get_connection_count (m : WSManager) : Nat := m.active_connections.length

/-- `WebSocketManager.send_personal_message` (lines 38-44).  `sendOk ws`
tells whether `websocket.send_text` succeeds on that transport; on failure
the exception is caught and the websocket is disconnected.  The `Bool`
result records whether the message was delivered; the function is total, so
no failure propagates to the caller. -/
def send_personal_message (sendOk : Nat → Bool) (ws : Nat) (m : WSManager) :
    WSManager × Bool :=
  if sendOk ws then (m, true) else (disconnect ws m, false)

/-- The `for connection in self.active_connections:` loop of `broadcast`:
visits the connections in order, attempting the send on each; returns the
connections that received the message and, separately, those whose send
raised (the `disconnected_connections` accumulator), both in order. -/
def broadcastLoop (sendOk : Nat → Bool) : List Nat → List Nat × List Nat
  | [] => ([], [])
  | c :: rest =>
      let r := broadcastLoop sendOk rest
      if sendOk c then (c :: r.1, r.2) else (r.1, c :: r.2)

/-- `WebSocketManager.broadcast` (lines 46-59): iterate over
`active_connections` in order, sending to each; failures are collected in
`disconnected_connections` and disconnected only after the loop (the list
is not mutated during iteration).  Returns the new state and the list of
connections that received the message, in registration order. -/
def broadcast (sendOk : Nat → Bool) (m : WSManager) : WSManager × List Nat :=
  let r := broadcastLoop sendOk m.active_connections
  (r.2.foldl (fun st c => disconnect c st) m, r.1)

/-! ### The `/ws/live-transcription` loop body (main.py lines 81-106) -/

/-- The JSON message built in the websocket loop. -/
structure WsMsg where
  type : String
  text : String
  confidence : ℚ
  is_final : Bool
  language : String
deriving DecidableEq

/-- One iteration of the `websocket_live_transcription` loop (main.py lines
89-106): receive a chunk, run `transcribe_realtime`, and pass the JSON
message to `send_personal_message` — unconditionally, for every chunk.
Returns the new registry state, the message handed to the send, and whether
it was delivered. -/
def websocket_iteration (env : Env) (o : Oracles) (sendOk : Nat → Bool)
    (ws : Nat) (chunk : List Nat) (m : WSManager) :
    WSManager × WsMsg × Bool :=
  let t := transcribe_realtime env o chunk
  let msg : WsMsg :=
    { type := "transcription"
      text := t.text.getD ""
      confidence := t.confidence.getD 0
      is_final := t.isFinal.getD false
      language := "en-GB" }
  let r := send_personal_message sendOk ws m
  (r.1, msg, r.2)

/-! ### Concrete environments and oracles used in scenario theorems -/

/-- Engine `"local"`, only Whisper importable, Whisper succeeds. -/
def envLocalOk : Env :=
  { openaiInstalled := false, whisperInstalled := true, speechsdkInstalled := false
    pydubInstalled := true, engine := "local" }

/-- Oracles where the local Whisper call succeeds with `"hello world"`. -/
def oraclesLocalOk : Oracles :=
  { openaiCall := fun _ => .error "openai not reachable"
    azureCall := fun _ => .error "azure not reachable"
    whisperCall := fun _ => .ok ⟨"hello world", "en"⟩
    decodeRaw := fun _ => .error "not used" }

/-- Engine `"openai"` with the OpenAI library importable. -/
def envOpenai : Env :=
  { openaiInstalled := true, whisperInstalled := true, speechsdkInstalled := false
    pydubInstalled := true, engine := "openai" }

/-- Oracles where decoding yields a 300 ms, −20 dBFS segment (too short). -/
def oraclesShort : Oracles :=
  { openaiCall := fun _ => .ok ⟨"cloud hello", some "en", some 1⟩
    azureCall := fun _ => .error "unused"
    whisperCall := fun _ => .ok ⟨"local hello", "en"⟩
    decodeRaw := fun _ => .ok ⟨300, -20, [9]⟩ }

/-- Oracles where decoding yields a 600 ms, −20 dBFS segment (ready), the
cloud call would answer `"cloud hello"` and Whisper answers `"local hello"`. -/
def oraclesReady : Oracles :=
  { openaiCall := fun _ => .ok ⟨"cloud hello", some "en", some 1⟩
    azureCall := fun _ => .error "unused"
    whisperCall := fun _ => .ok ⟨"local hello", "en"⟩
    decodeRaw := fun _ => .ok ⟨600, -20, [2, 3]⟩ }

/-- Engine `"openai"`, library importable but `OPENAI_API_KEY` empty: the
branch in `transcribe` still takes the OpenAI path, whose API call fails. -/
def envNoCred : Env :=
  { openaiInstalled := true, whisperInstalled := true, speechsdkInstalled := false
    pydubInstalled := true, engine := "openai", OPENAI_API_KEY := "" }

/-- Oracles where the OpenAI call fails for lack of credentials while the
local Whisper call would succeed. -/
def oraclesNoCred : Oracles :=
  { openaiCall := fun _ => .error "Incorrect API key provided"
    azureCall := fun _ => .error "unused"
    whisperCall := fun _ => .ok ⟨"local hello", "en"⟩
    decodeRaw := fun _ => .error "unused" }

/-! ### C1 — result shape of `transcribe` -/

/-- C1 (counterexample): the claim says every result of `transcribe`
contains all four fields `text`, `confidence`, `language`, `is_final` with
defaults filled in.  In the code no one-shot path ever sets `"is_final"`,
and the error dicts omit `"language"`: with the local engine and a
successful Whisper call the result has no `is_final` key, and with Whisper
missing the error result has no `language` key. -/
theorem claim1_counterexample :
    (transcribe envLocalOk oraclesLocalOk (Audio.bytes [0, 1])).isFinal = none ∧
    (transcribe { envLocalOk with whisperInstalled := false } oraclesLocalOk
      (Audio.bytes [0, 1])).language = none :=
  ⟨rfl, rfl⟩

/-- C1 (amended): `transcribe` never raises (it is a total function whose
branches catch their own exceptions); every result has `text` and
`confidence` present; on a backend-internal error the result is exactly
`{text="", confidence=0.0, error=e}`; but `is_final` is never present in a
one-shot result and `language` is absent exactly on error results — the
defaults `""`, `0.0`, `"en"`/`false` are applied by the callers via
`dict.get`, not by `transcribe` itself. -/
theorem claim1_result_shape (env : Env) (o : Oracles) (a : Audio) :
    ((transcribe env o a).text.isSome ∧ (transcribe env o a).confidence.isSome) ∧
    (transcribe env o a).isFinal = none ∧
    (∀ e, (transcribe env o a).error = some e →
      transcribe env o a = { text := some "", confidence := some 0, error := some e }) := by
  unfold transcribe
  split
  · unfold transcribe_openai
    cases o.openaiCall a <;> simp [TDict.mk.injEq]
  · split
    · unfold transcribe_azure
      split
      · simp [TDict.mk.injEq]
      · cases h : o.azureCall a with
        | error e => simp [TDict.mk.injEq]
        | ok r => cases r <;> simp [TDict.mk.injEq]
    · unfold transcribe_whisper_local
      split
      · simp [TDict.mk.injEq]
      · cases o.whisperCall a <;> simp [TDict.mk.injEq]

/-- C1 (witness): at the concrete input where Whisper is not importable,
the error result predicted by `claim1_result_shape` is attained. -/
theorem claim1_result_shape_witness :
    transcribe { envLocalOk with whisperInstalled := false } oraclesLocalOk (Audio.bytes []) =
      { text := some "", confidence := some 0, error := some "Whisper not installed" } :=
  (claim1_result_shape { envLocalOk with whisperInstalled := false } oraclesLocalOk
    (Audio.bytes [])).2.2 "Whisper not installed" rfl

/-! ### C2 — the `/transcribe` endpoint with a missing audio payload -/

/-- C2: with no `"audio"` field the `try:` block does raise
`HTTPException(400, "No audio data provided")` and never calls the backend
— but that exception is caught by the endpoint's own blanket
`except Exception`, which replaces it with
`HTTPException(500, "Transcription failed")`.  The client therefore never
sees an error signaling missing audio, contradicting both the spec sentence
and the code's evident intent at line 65 of `main.py`. -/
theorem claim2_missing_audio (env : Env) (o : Oracles) (now : String) :
    transcribe_audio_try env o none now =
      (.error ⟨400, "No audio data provided"⟩, false) ∧
    transcribe_audio env o none now =
      (.error ⟨500, "Transcription failed"⟩, false) :=
  ⟨rfl, rfl⟩

/-! ### C3 — below-threshold chunks on the streaming path -/

/-- C3 (counterexample): the claim says a below-threshold chunk produces no
result and the client receives nothing.  In the code `transcribe_realtime`
returns a placeholder dict and the websocket loop unconditionally sends a
message for every chunk: a 300 ms chunk yields a delivered
`{"type":"transcription","text":"",...}` frame. -/
theorem claim3_counterexample :
    (websocket_iteration envOpenai oraclesShort (fun _ => true) 7 [1]
        (connect 7 emptyManager)).2 =
      ({ type := "transcription", text := "", confidence := 0, is_final := false
         language := "en-GB" }, true) :=
  rfl

/-- C3 (amended): for every chunk whose decoded segment is shorter than
500 ms or quieter than −40 dBFS (with `pydub` importable),
`transcribe_realtime` returns the placeholder
`{text="", confidence=0.0, is_final=false}` (no error key), and the
websocket loop sends the client a transcription message with empty text,
confidence 0 and `is_final=false` for that chunk — a message is sent, not
nothing. -/
theorem claim3_below_threshold (env : Env) (o : Oracles) (f : Nat → Bool)
    (ws : Nat) (chunk : List Nat) (m : WSManager) (seg : Seg)
    (hp : env.pydubInstalled = true) (hd : o.decodeRaw chunk = .ok seg)
    (h : seg.lengthMs < 500 ∨ seg.dBFS < -40) :
    transcribe_realtime env o chunk =
      { text := some "", confidence := some 0, isFinal := some false } ∧
    (websocket_iteration env o f ws chunk m).2.1 =
      { type := "transcription", text := "", confidence := 0, is_final := false
        language := "en-GB" } := by
  have ht : transcribe_realtime env o chunk =
      { text := some "", confidence := some 0, isFinal := some false } := by
    unfold transcribe_realtime
    rw [hp, hd]
    simp only [Bool.not_true, Bool.false_eq_true, if_false]
    rcases h with h | h
    · rw [if_pos h]
    · by_cases h5 : seg.lengthMs < 500
      · rw [if_pos h5]
      · rw [if_neg h5, if_pos h]
  refine ⟨ht, ?_⟩
  unfold websocket_iteration
  rw [ht]
  rfl

/-- C3 (witness): the amended statement at the concrete 300 ms chunk. -/
theorem claim3_below_threshold_witness :
    transcribe_realtime envOpenai oraclesShort [1] =
      { text := some "", confidence := some 0, isFinal := some false } ∧
    (websocket_iteration envOpenai oraclesShort (fun _ => true) 7 [1]
        (connect 7 emptyManager)).2.1 =
      { type := "transcription", text := "", confidence := 0, is_final := false
        language := "en-GB" } :=
  claim3_below_threshold envOpenai oraclesShort (fun _ => true) 7 [1]
    (connect 7 emptyManager) ⟨300, -20, [9]⟩ rfl rfl (Or.inl (by decide))

/-! ### C4 — ready chunks and backend routing on the streaming path -/

/-- Modelled from the spec: the routed real-time path the claim describes —
after segmentation, route the ready segment through the backend selected by
the configured engine name (the `BackendRouter`, i.e. `transcribe`), then
tag `is_final`.  Written from the spec's words only to compare against the
source's `transcribe_realtime`, which instead hard-wires the ready path to
`_transcribe_whisper_local`. -/
def realtimeRoutedSpec (env : Env) (o : Oracles) (chunk : List Nat) : TDict :=
  if !env.pydubInstalled then
    transcribe env o (.bytes chunk)
  else
    match o.decodeRaw chunk with
    | .error e =>
        { text := some "", confidence := some 0, isFinal := some false, error := some e }
    | .ok seg =>
        if seg.lengthMs < 500 then
          { text := some "", confidence := some 0, isFinal := some false }
        else if seg.dBFS < -40 then
          { text := some "", confidence := some 0, isFinal := some false }
        else
          let r := transcribe env o (.bytes seg.wav)
          { r with isFinal := some (decide (0 < (r.text.getD "").length)) }

/-- C4 (counterexample): with engine `"openai"` configured and the OpenAI
library importable, a ready 600 ms chunk is transcribed by the local
Whisper backend (text `"local hello"`, confidence 0.85), not by the
engine-selected backend the claim describes (which would answer
`"cloud hello"` with confidence 0.9): line 204 of `speech_service.py`
calls `_transcribe_whisper_local` directly. -/
theorem claim4_counterexample :
    transcribe_realtime envOpenai oraclesReady [1] ≠
      realtimeRoutedSpec envOpenai oraclesReady [1] :=
  fun h => absurd (congrArg TDict.text h) (by decide)

/-- C4 (amended): for every ready chunk (decoded, ≥ 500 ms, ≥ −40 dBFS),
`transcribe_realtime` returns the result of the local Whisper backend —
regardless of the configured engine — tagged with
`is_final = (text is non-empty)`; and when the Whisper call succeeds with
text whose stripped form is non-empty, the result is exactly
`{text, confidence=0.85, language, is_final=true}` (this covers the spec's
600 ms Local-backend scenario). -/
theorem claim4_ready_chunk (env : Env) (o : Oracles) (chunk : List Nat)
    (seg : Seg) (hp : env.pydubInstalled = true)
    (hd : o.decodeRaw chunk = .ok seg) (h5 : ¬ seg.lengthMs < 500)
    (hdb : ¬ seg.dBFS < -40) :
    (transcribe_realtime env o chunk =
      (let r := transcribe_whisper_local env o (.bytes seg.wav)
       { r with isFinal := some (decide (0 < (r.text.getD "").length)) })) ∧
    (∀ w : WhisperOut, env.whisperInstalled = true →
      o.whisperCall (.bytes seg.wav) = .ok w → 0 < (pyStrip w.text).length →
      transcribe_realtime env o chunk =
        { text := some (pyStrip w.text), confidence := some (85/100)
          language := some w.language, isFinal := some true }) := by
  have hbase : transcribe_realtime env o chunk =
      (let r := transcribe_whisper_local env o (.bytes seg.wav)
       { r with isFinal := some (decide (0 < (r.text.getD "").length)) }) := by
    unfold transcribe_realtime
    rw [hp, hd]
    simp only [Bool.not_true, Bool.false_eq_true, if_false]
    rw [if_neg h5, if_neg hdb]
  refine ⟨hbase, fun w hw hcall hlen => ?_⟩
  rw [hbase]
  unfold transcribe_whisper_local
  rw [hw, hcall]
  simp only [Bool.not_true, Bool.false_eq_true, if_false, Option.getD_some]
  rw [decide_eq_true hlen]

/-- C4 (witness): the 600 ms audible chunk with a successful local Whisper
call yields `{text="local hello", confidence=0.85, is_final=true}`. -/
theorem claim4_ready_chunk_witness :
    transcribe_realtime envOpenai oraclesReady [1] =
      { text := some (pyStrip "local hello"), confidence := some (85/100)
        language := some "en", isFinal := some true } :=
  (claim4_ready_chunk envOpenai oraclesReady [1] ⟨600, -20, [2, 3]⟩ rfl rfl
    (by decide) (by decide)).2 ⟨"local hello", "en"⟩ rfl rfl (by decide)

/-! ### C5 — engine selection and fallback -/

/-- C5 (counterexample): with engine `"openai"`, the OpenAI library
importable but no API key, `transcribe` still takes the OpenAI path — whose
call fails — and returns that error result; the Local variant would have
succeeded, so the returned result does not come from the Local backend.
The branch at lines 75-80 checks only library importability, never
credentials. -/
theorem claim5_counterexample :
    transcribe envNoCred oraclesNoCred (Audio.bytes [1]) =
      { text := some "", confidence := some 0
        error := some "Incorrect API key provided" } ∧
    transcribe_whisper_local envNoCred oraclesNoCred (Audio.bytes [1]) =
      { text := some (pyStrip "local hello"), confidence := some (85/100)
        language := some "en" } ∧
    transcribe envNoCred oraclesNoCred (Audio.bytes [1]) ≠
      transcribe_whisper_local envNoCred oraclesNoCred (Audio.bytes [1]) :=
  ⟨rfl, rfl, fun h => absurd (congrArg TDict.text h) (by decide)⟩

/-- C5 (amended): `transcribe` selects the backend case-insensitively (the
result depends on the configured engine name only through its lowercase
form), and it falls back to the local Whisper variant exactly when the
configured cloud backend's *library* is not importable or the engine name
is unrecognized; missing credentials do not trigger fallback — the cloud
backend is still invoked and its failure surfaces as an error result. -/
theorem claim5_routing :
    (∀ (o : Oracles) (a : Audio) (oi wi si pi : Bool) (e1 e2 key : String) (sr : ℤ),
      pyLower e1 = pyLower e2 →
      transcribe ⟨oi, wi, si, pi, e1, key, sr⟩ o a =
        transcribe ⟨oi, wi, si, pi, e2, key, sr⟩ o a) ∧
    (∀ (env : Env) (o : Oracles) (a : Audio),
      (pyLower env.engine = "openai" ∧ env.openaiInstalled = false) ∨
      (pyLower env.engine = "azure" ∧ env.speechsdkInstalled = false) ∨
      (pyLower env.engine ≠ "openai" ∧ pyLower env.engine ≠ "azure") →
      transcribe env o a = transcribe_whisper_local env o a) := by
  constructor
  · intro o a oi wi si pi e1 e2 key sr h
    unfold transcribe
    rw [show (⟨oi, wi, si, pi, e1, key, sr⟩ : Env).engine = e1 from rfl,
      show (⟨oi, wi, si, pi, e2, key, sr⟩ : Env).engine = e2 from rfl, h]
    rfl
  · intro env o a h
    unfold transcribe
    rcases h with ⟨he, hl⟩ | ⟨he, hl⟩ | ⟨h1, h2⟩
    · rw [he, hl]
      simp
    · rw [he, hl]
      simp
    · rw [if_neg ?_, if_neg ?_]
      · simp only [Bool.and_eq_true, beq_iff_eq]
        exact fun hc => h2 hc.1
      · simp only [Bool.and_eq_true, beq_iff_eq]
        exact fun hc => h1 hc.1

/-- C5 (witness): `"OpenAI"` routes like `"openai"`, and with the OpenAI
library missing the `"openai"` engine falls back to the local variant. -/
theorem claim5_routing_witness :
    transcribe ⟨true, true, false, true, "OpenAI", "", 16000⟩ oraclesLocalOk
        (Audio.bytes []) =
      transcribe ⟨true, true, false, true, "openai", "", 16000⟩ oraclesLocalOk
        (Audio.bytes []) ∧
    transcribe ⟨false, true, false, true, "openai", "", 16000⟩ oraclesLocalOk
        (Audio.bytes []) =
      transcribe_whisper_local ⟨false, true, false, true, "openai", "", 16000⟩
        oraclesLocalOk (Audio.bytes []) :=
  ⟨claim5_routing.1 oraclesLocalOk (Audio.bytes []) true true false true
      "OpenAI" "openai" "" 16000 (by decide),
   claim5_routing.2 ⟨false, true, false, true, "openai", "", 16000⟩ oraclesLocalOk
      (Audio.bytes []) (Or.inl ⟨by decide, rfl⟩)⟩

/-! ### Registry lemmas -/

/-- In every case `disconnect` leaves `active_connections` equal to the
Python `list.remove` result (removing nothing when absent). -/
theorem disconnect_active (ws : Nat) (m : WSManager) :
    (disconnect ws m).active_connections = m.active_connections.erase ws := by
  unfold disconnect
  split
  · split <;> rfl
  · next h => exact (List.erase_of_not_mem h).symm

/-- `disconnect` of an unregistered websocket is a no-op. -/
theorem disconnect_of_not_mem (ws : Nat) (m : WSManager)
    (h : ws ∉ m.active_connections) : disconnect ws m = m := by
  unfold disconnect
  rw [if_neg h]

/-- The keys of `dictDelete` are the key list with the first occurrence of
`k` erased. -/
theorem dictKeys_dictDelete (k : Nat) (l : List (Nat × ConnInfo)) :
    dictKeys (dictDelete k l) = (dictKeys l).erase k := by
  induction l with
  | nil => rfl
  | cons p rest ih =>
      obtain ⟨k', v'⟩ := p
      by_cases hk : k = k'
      · subst hk
        simp [dictDelete, dictKeys, List.erase_cons]
      · rw [show dictDelete k ((k', v') :: rest) = (k', v') :: dictDelete k rest from by
            simp [dictDelete, hk],
          show dictKeys ((k', v') :: dictDelete k rest) = k' :: dictKeys (dictDelete k rest)
            from rfl,
          ih,
          show dictKeys ((k', v') :: rest) = k' :: dictKeys rest from rfl,
          List.erase_cons]
        simp [Ne.symm hk]

/-- The keys of `dictInsert`: unchanged when the key exists, appended
otherwise. -/
theorem dictKeys_dictInsert (k : Nat) (v : ConnInfo) (l : List (Nat × ConnInfo)) :
    dictKeys (dictInsert k v l) =
      if k ∈ dictKeys l then dictKeys l else dictKeys l ++ [k] := by
  induction l with
  | nil => rfl
  | cons p rest ih =>
      obtain ⟨k', v'⟩ := p
      by_cases hk : k = k'
      · subst hk
        simp [dictInsert, dictKeys]
      · simp only [dictInsert, if_neg hk, dictKeys, List.map_cons, List.mem_cons]
        by_cases hmem : k ∈ dictKeys rest
        · simp [dictKeys] at hmem ih ⊢
          simp [hmem, Ne.symm hk, ih]
        · simp [dictKeys] at hmem ih ⊢
          simp [hmem, hk, Ne.symm hk, ih]

/-- The well-formedness invariant of the registry: no duplicate websocket
in `active_connections`, no duplicate key in `connection_info`, and both
track exactly the same websockets. -/
def Inv (m : WSManager) : Prop :=
  m.active_connections.Nodup ∧ (dictKeys m.connection_info).Nodup ∧
  (∀ w ∈ m.active_connections, w ∈ dictKeys m.connection_info) ∧
  (∀ w ∈ dictKeys m.connection_info, w ∈ m.active_connections)

instance (m : WSManager) : Decidable (Inv m) := by
  unfold Inv
  infer_instance

/-- The freshly constructed manager satisfies the invariant. -/
theorem inv_empty : Inv emptyManager := by decide

/-- `connect` preserves the invariant when the websocket is not already
registered. -/
theorem inv_connect (ws : Nat) (m : WSManager) (h : Inv m)
    (hws : ws ∉ m.active_connections) : Inv (connect ws m) := by
  obtain ⟨hnd, hndk, h1, h2⟩ := h
  have hwk : ws ∉ dictKeys m.connection_info := fun hk => hws (h2 ws hk)
  have hkeys : dictKeys (dictInsert ws {} m.connection_info) =
      dictKeys m.connection_info ++ [ws] := by
    rw [dictKeys_dictInsert, if_neg hwk]
  refine ⟨?_, ?_, ?_, ?_⟩
  · simpa [connect, List.nodup_append, hws] using hnd
  · simp only [connect, hkeys]
    simpa [List.nodup_append, hwk] using hndk
  · intro w hw
    simp only [connect, List.mem_append, List.mem_singleton] at hw
    simp only [connect, hkeys, List.mem_append, List.mem_singleton]
    exact hw.imp (h1 w) id
  · intro w hw
    simp only [connect, hkeys, List.mem_append, List.mem_singleton] at hw
    simp only [connect, List.mem_append, List.mem_singleton]
    exact hw.imp (h2 w) id

/-- `disconnect` always preserves the invariant. -/
theorem inv_disconnect (ws : Nat) (m : WSManager) (h : Inv m) :
    Inv (disconnect ws m) := by
  obtain ⟨hnd, hndk, h1, h2⟩ := h
  by_cases hm : ws ∈ m.active_connections
  · have hk : ws ∈ dictKeys m.connection_info := h1 ws hm
    have heq : disconnect ws m =
        ⟨m.active_connections.erase ws, dictDelete ws m.connection_info⟩ := by
      unfold disconnect
      rw [if_pos hm, if_pos hk]
    rw [heq]
    refine ⟨hnd.erase ws, ?_, ?_, ?_⟩
    · rw [dictKeys_dictDelete]
      exact hndk.erase ws
    · intro w hw
      rw [hnd.mem_erase_iff] at hw
      rw [dictKeys_dictDelete, hndk.mem_erase_iff]
      exact ⟨hw.1, h1 w hw.2⟩
    · intro w hw
      rw [dictKeys_dictDelete, hndk.mem_erase_iff] at hw
      rw [hnd.mem_erase_iff]
      exact ⟨hw.1, h2 w hw.2⟩
  · have heq : disconnect ws m = m := by
      unfold disconnect
      rw [if_neg hm]
    rw [heq]
    exact ⟨hnd, hndk, h1, h2⟩

/-- The `active_connections` after the cleanup loop of `broadcast`: each
`disconnect` in turn erases its websocket. -/
theorem foldl_disconnect_active (d : List Nat) (m : WSManager) :
    (d.foldl (fun st c => disconnect c st) m).active_connections =
      d.foldl (fun l c => l.erase c) m.active_connections := by
  induction d generalizing m with
  | nil => rfl
  | cons a t ih => simp only [List.foldl_cons, ih, disconnect_active]

/-- Erasing elements all different from the head leaves the head in place. -/
theorem foldl_erase_keep (d : List Nat) (l : List Nat) (a : Nat)
    (h : ∀ c ∈ d, c ≠ a) :
    d.foldl (fun l c => l.erase c) (a :: l) =
      a :: d.foldl (fun l c => l.erase c) l := by
  induction d generalizing l with
  | nil => rfl
  | cons b t ih =>
      have hb : b ≠ a := h b (List.mem_cons_self b t)
      have hstep : (a :: l).erase b = a :: l.erase b := by
        rw [List.erase_cons]
        simp [Ne.symm hb]
      simp only [List.foldl_cons, hstep]
      exact ih (l.erase b) (fun c hc => h c (List.mem_cons_of_mem b hc))

/-- Erasing, from a duplicate-free list, exactly the elements failing `f`
leaves exactly the elements satisfying `f`, in order. -/
theorem foldl_erase_filter (f : Nat → Bool) (l : List Nat) (hl : l.Nodup) :
    (l.filter (fun c => !f c)).foldl (fun acc c => acc.erase c) l =
      l.filter f := by
  induction l with
  | nil => rfl
  | cons a t ih =>
      rw [List.nodup_cons] at hl
      obtain ⟨ha, ht⟩ := hl
      by_cases hfa : f a
      · have hbad : (a :: t).filter (fun c => !f c) = t.filter (fun c => !f c) := by
          simp [hfa]
        have hgood : (a :: t).filter f = a :: t.filter f := by
          simp [hfa]
        rw [hbad, hgood]
        have hne : ∀ c ∈ t.filter (fun c => !f c), c ≠ a := by
          intro c hc hca
          exact ha (hca ▸ List.mem_of_mem_filter hc)
        rw [foldl_erase_keep _ _ _ hne, ih ht]
      · have hbad : (a :: t).filter (fun c => !f c) = a :: t.filter (fun c => !f c) := by
          simp [hfa]
        have hgood : (a :: t).filter f = t.filter f := by
          simp [hfa]
        have hstep : (a :: t).erase a = t := by
          simp [List.erase_cons]
        rw [hbad, hgood, List.foldl_cons, hstep, ih ht]

/-- The broadcast loop delivers to exactly the connections whose send
succeeds and collects exactly those whose send fails, each in order. -/
theorem broadcastLoop_eq (sendOk : Nat → Bool) (l : List Nat) :
    broadcastLoop sendOk l = (l.filter sendOk, l.filter (fun c => !sendOk c)) := by
  induction l with
  | nil => rfl
  | cons c rest ih =>
      by_cases hc : sendOk c <;>
        simp [broadcastLoop, ih, List.filter_cons, hc]

/-! ### C6 — broadcast semantics -/

/-- C6: `broadcast` attempts delivery to every currently-registered
connection in registration order (the delivered list is exactly the
registered connections whose send succeeds, in order); connections whose
send fails are unregistered only after the loop, and afterwards the
registry holds exactly the connections whose send succeeded.  The model is
a total function: the per-connection `except` clause means no exception
escapes the call. -/
theorem claim6_broadcast (m : WSManager) (sendOk : Nat → Bool)
    (h : m.active_connections.Nodup) :
    (broadcast sendOk m).2 = m.active_connections.filter sendOk ∧
    (broadcast sendOk m).1.active_connections = m.active_connections.filter sendOk ∧
    (∀ c ∈ m.active_connections, sendOk c = false →
      c ∉ (broadcast sendOk m).1.active_connections) := by
  have h1 : (broadcast sendOk m).2 = m.active_connections.filter sendOk := by
    unfold broadcast
    rw [broadcastLoop_eq]
  have h2 : (broadcast sendOk m).1.active_connections =
      m.active_connections.filter sendOk := by
    unfold broadcast
    rw [broadcastLoop_eq, foldl_disconnect_active,
      foldl_erase_filter sendOk m.active_connections h]
  refine ⟨h1, h2, ?_⟩
  intro c _hc hfc hmem
  rw [h2] at hmem
  rw [List.mem_filter] at hmem
  rw [hfc] at hmem
  exact Bool.false_ne_true hmem.2

/-- The send oracle of the spec's broadcast scenario: the transport of
connection 2 is severed, the others deliver. -/
def sendOkNot2 : Nat → Bool := fun c => !(c == 2)

/-- The registry with connections 1, 2, 3 registered in order. -/
def manager123 : WSManager := connect 3 (connect 2 (connect 1 emptyManager))

/-- C6 (witness): broadcasting to 3 registered connections where the 2nd is
severed delivers to 1 and 3 and leaves exactly 1 and 3 registered. -/
theorem claim6_broadcast_witness :
    (broadcast sendOkNot2 manager123).2 = [1, 3] ∧
    (broadcast sendOkNot2 manager123).1.active_connections = [1, 3] := by
  have h := claim6_broadcast manager123 sendOkNot2 (by decide)
  exact ⟨h.1.trans (by decide), h.2.1.trans (by decide)⟩

/-! ### C7 — send failure handling -/

/-- C7: when the transport send fails, `send_personal_message` catches the
failure, disconnects the websocket — removing it from both
`active_connections` and `connection_info` — and returns normally (the
model is a total function returning `false` for "not delivered", so no
failure propagates to the caller). -/
theorem claim7_send_failure (m : WSManager) (sendOk : Nat → Bool) (ws : Nat)
    (hInv : Inv m) (hf : sendOk ws = false) :
    send_personal_message sendOk ws m = (disconnect ws m, false) ∧
    ws ∉ (send_personal_message sendOk ws m).1.active_connections ∧
    ws ∉ dictKeys (send_personal_message sendOk ws m).1.connection_info := by
  obtain ⟨hnd, hndk, h1, h2⟩ := hInv
  have heq : send_personal_message sendOk ws m = (disconnect ws m, false) := by
    unfold send_personal_message
    rw [hf]
    rfl
  refine ⟨heq, ?_, ?_⟩
  · rw [heq, disconnect_active]
    exact hnd.not_mem_erase
  · rw [heq]
    by_cases hm : ws ∈ m.active_connections
    · have hk : ws ∈ dictKeys m.connection_info := h1 ws hm
      have : (disconnect ws m).connection_info = dictDelete ws m.connection_info := by
        unfold disconnect
        rw [if_pos hm, if_pos hk]
      rw [this, dictKeys_dictDelete]
      exact hndk.not_mem_erase
    · have : disconnect ws m = m := by
        unfold disconnect
        rw [if_neg hm]
      rw [this]
      exact fun hk => hm (h2 ws hk)

/-- C7 (witness): with connections 1, 2, 3 registered and the transport of
2 severed, a direct send to 2 removes it from both structures and reports
no delivery. -/
theorem claim7_send_failure_witness :
    send_personal_message sendOkNot2 2 manager123 = (disconnect 2 manager123, false) ∧
    2 ∉ (send_personal_message sendOkNot2 2 manager123).1.active_connections ∧
    2 ∉ dictKeys (send_personal_message sendOkNot2 2 manager123).1.connection_info :=
  claim7_send_failure manager123 sendOkNot2 2 (by decide) (by decide)

/-! ### C8 — duplicate registration -/

/-- C8 (counterexample): the claim says a second `connect` on the same
connection leaves the registry as after one.  `connect` appends
unconditionally (line 22 of `websocket_manager.py`), so connecting the same
websocket twice from the empty registry leaves it twice in
`active_connections`, a different state than after one `connect`. -/
theorem claim8_counterexample :
    (connect 1 (connect 1 emptyManager)).active_connections = [1, 1] ∧
    connect 1 (connect 1 emptyManager) ≠ connect 1 emptyManager := by
  decide

/-- C8 (amended): registration is **not** idempotent-safe — for every
registry state, a second `connect` on the same websocket appends a second
occurrence to `active_connections` (the metadata entry is merely
overwritten), and the connection count grows by 2 over the two calls. -/
theorem claim8_double_connect (m : WSManager) (ws : Nat) :
    (connect ws (connect ws m)).active_connections =
      m.active_connections ++ [ws, ws] ∧
    get_connection_count (connect ws (connect ws m)) = get_connection_count m + 2 := by
  constructor
  · simp [connect]
  · simp [connect, get_connection_count]

/-! ### C9 — idempotence of disconnect -/

/-- C9 (counterexample): the claim quantifies over every registry state; on
the reachable state produced by connecting the same websocket twice
(`active_connections = [1, 1]`), a second `disconnect` removes the second
occurrence, so it does not equal a single `disconnect`. -/
theorem claim9_counterexample :
    disconnect 1 (disconnect 1 (connect 1 (connect 1 emptyManager))) ≠
      disconnect 1 (connect 1 (connect 1 emptyManager)) := by
  decide

/-- C9 (amended): on every registry state in which the handle occurs at
most once in `active_connections` — which includes every state reachable
without duplicate registration — `disconnect` is idempotent: the second
call finds the websocket absent and is a complete no-op (and, the model
being total, raises nothing). -/
theorem claim9_disconnect_idem (m : WSManager) (ws : Nat)
    (h : m.active_connections.count ws ≤ 1) :
    disconnect ws (disconnect ws m) = disconnect ws m := by
  by_cases hm : ws ∈ m.active_connections
  · have hnot : ws ∉ (disconnect ws m).active_connections := by
      rw [disconnect_active]
      intro hmem
      have hpos := List.count_pos_iff.mpr hmem
      rw [List.count_erase_self] at hpos
      omega
    exact disconnect_of_not_mem ws (disconnect ws m) hnot
  · have heq : disconnect ws m = m := disconnect_of_not_mem ws m hm
    rw [heq, heq]

/-- C9 (witness): idempotence at a concrete duplicate-free registry. -/
theorem claim9_disconnect_idem_witness :
    disconnect 1 (disconnect 1 manager123) = disconnect 1 manager123 :=
  claim9_disconnect_idem manager123 1 (by decide)

/-! ### C10 — the registry invariant along operation sequences -/

/-- A registry operation: a client connecting or disconnecting. -/
inductive WSOp where
  | conn (ws : Nat)
  | disc (ws : Nat)
deriving DecidableEq

/-- Apply one operation to the registry. -/
def applyOp : WSOp → WSManager → WSManager
  | .conn ws, m => connect ws m
  | .disc ws, m => disconnect ws m

/-- Run a sequence of operations from a starting registry state. -/
def runOps (ops : List WSOp) (m : WSManager) : WSManager :=
  ops.foldl (fun s op => applyOp op s) m

/-- The assumption of the claim, as a decidable trace predicate: `connect`
is never invoked on a websocket that is currently registered.  Every
`disconnect` is allowed. -/
def legalFrom (m : WSManager) : List WSOp → Bool
  | [] => true
  | op :: rest =>
      (match op with
       | .conn ws => decide (ws ∉ m.active_connections)
       | .disc _ => true) && legalFrom (applyOp op m) rest

/-- Along any legal trace the invariant is preserved. -/
theorem legal_run_inv (ops : List WSOp) (m : WSManager) (hInv : Inv m)
    (hLegal : legalFrom m ops = true) : Inv (runOps ops m) := by
  induction ops generalizing m with
  | nil => exact hInv
  | cons op rest ih =>
      cases op with
      | conn ws =>
          have hdef : legalFrom m (.conn ws :: rest) =
              (decide (ws ∉ m.active_connections) &&
                legalFrom (applyOp (.conn ws) m) rest) := rfl
          rw [hdef, Bool.and_eq_true, decide_eq_true_eq] at hLegal
          exact ih (applyOp (.conn ws) m) (inv_connect ws m hInv hLegal.1) hLegal.2
      | disc ws =>
          have hdef : legalFrom m (.disc ws :: rest) =
              (true && legalFrom (applyOp (.disc ws) m) rest) := rfl
          rw [hdef, Bool.true_and] at hLegal
          exact ih (applyOp (.disc ws) m) (inv_disconnect ws m hInv) hLegal

/-- C10: starting from the empty manager, along any sequence of `connect`
and `disconnect` operations in which `connect` is never invoked on a
currently-registered websocket, the set of websockets in
`active_connections` equals the key set of `connection_info`, and
`get_connection_count` returns the size of that set. -/
theorem claim10_registry_invariant (ops : List WSOp)
    (h : legalFrom emptyManager ops = true) :
    ((runOps ops emptyManager).active_connections.toFinset =
      (dictKeys (runOps ops emptyManager).connection_info).toFinset) ∧
    get_connection_count (runOps ops emptyManager) =
      (runOps ops emptyManager).active_connections.toFinset.card := by
  obtain ⟨hnd, _hndk, h1, h2⟩ := legal_run_inv ops emptyManager inv_empty h
  constructor
  · ext w
    simp only [List.mem_toFinset]
    exact ⟨h1 w, h2 w⟩
  · rw [get_connection_count, List.toFinset_card_of_nodup hnd]

/-- A concrete legal trace: connect 1, connect 2, disconnect 1, connect 3. -/
def opsSample : List WSOp := [.conn 1, .conn 2, .disc 1, .conn 3]

/-- C10 (witness): the invariant conclusion at the concrete trace
`opsSample`, whose final registry holds websockets 2 and 3. -/
theorem claim10_registry_invariant_witness :
    ((runOps opsSample emptyManager).active_connections.toFinset =
      (dictKeys (runOps opsSample emptyManager).connection_info).toFinset) ∧
    get_connection_count (runOps opsSample emptyManager) = 2 := by
  have h := claim10_registry_invariant opsSample (by decide)
  exact ⟨h.1, h.2.trans (by decide)⟩

end SignBridge
